import Mathlib

/-
Formal model of the Word-Of-The-Day pipeline (src/main.py and src/approve.py),
as a shallow embedding: every external effect (network navigation, subprocess
results, file-system state, SMTP delivery, HTTP responses, stdin) is an explicit
input, and each Python function is translated into a pure Lean function over
those inputs.
-/

set_option maxHeartbeats 1000000

namespace WotdPipeline

/-- Python str.strip: remove leading and trailing whitespace. -/
def pyStrip (s : String) : String :=
  ⟨((s.data.dropWhile Char.isWhitespace).reverse.dropWhile Char.isWhitespace).reverse⟩

/-- Python str.lower: lowercase every character. -/
def pyLower (s : String) : String := ⟨s.data.map Char.toLower⟩

/-- Python slicing s[:n]: the first n characters of the string. -/
def pyTake (n : Nat) (s : String) : String := ⟨s.data.take n⟩

/-- Python str.startswith. -/
def pyStartsWith (s pre : String) : Bool := pre.data.isPrefixOf s.data

/-- Python truthiness of an optional string (the result of os.getenv):
None and the empty string are falsy. -/
def truthy : Option String → Bool
  | Option.none => false
  | Option.some s => s != ""

/-- A single-quote character, used inside generated filler text. -/
def apos : String := String.singleton (Char.ofNat 39)

/-- Python exception values that the pipeline can raise. -/
inductive PyErr where
  | valueError (msg : String)
  | keyError (key : String)
  | runtimeError (msg : String)
  | assertionError (msg : String)
  | osError (msg : String)
  | indexError
  | jsonDecodeError
  | exception (msg : String)
deriving DecidableEq, Repr

/-- The raw acquisition result of fetch_word_of_the_day / load_fallback:
a dict with keys word, phonetic, definitions. -/
structure WorkRecord where
  word : String
  phonetic : String
  definitions : List String
deriving DecidableEq, Repr

/-- One pass of re.sub removing every occurrence of the tag pattern
(an opening angle bracket, one or more non-closing characters, a closing
angle bracket); fuel bounds the recursion by the input length. -/
def stripTagsAux : Nat → List Char → List Char
  | 0, l => l
  | _ + 1, [] => []
  | fuel + 1, c :: rest =>
    if c = '<' then
      match rest.takeWhile (fun x => x != '>'), rest.dropWhile (fun x => x != '>') with
      | _ :: _, _ :: r2 => stripTagsAux fuel r2
      | _, _ => c :: stripTagsAux fuel rest
    else c :: stripTagsAux fuel rest

/-- re.sub of the HTML-tag pattern with the empty string, from main.py. -/
def stripTags (s : String) : String := ⟨stripTagsAux s.data.length s.data⟩

/-- The deterministic filler definition appended while fewer than 3
definitions are present (main.py lines 119-120 and 158-159). -/
def fillerPhrase (word : String) : String :=
  "Used in context: The word " ++ apos ++ word ++ apos ++ " enriches any sentence."

/-- The pad-then-truncate step shared by both scraping strategies:
append the filler phrase while the list is shorter than 3, then keep
exactly the first 3 entries. -/
def padDefinitions (word : String) (defs : List String) : List String :=
  (defs ++ List.replicate (3 - defs.length) (fillerPhrase word)).take 3

/-- The embedded JSON document found in the script#json-current-wotd element,
after json.loads succeeded and the headword key was present; the remaining
fields use .get defaults, so absence is the empty string. -/
structure WotdJson where
  headword : String
  phoneticHtml : String
  definition : String
  partOfSpeech : String
  exampleSentence : String
  body : String
deriving DecidableEq, Repr

/-- Strategy 1 of fetch_word_of_the_day (main.py lines 92-124): build the
record from the embedded JSON data. -/
def jsonStrategy (d : WotdJson) : WorkRecord :=
  let word := pyLower (pyStrip d.headword)
  let phonetic := if d.phoneticHtml ≠ "" then "[" ++ stripTags d.phoneticHtml ++ "]" else ""
  let defs0 : List String :=
    if d.partOfSpeech ≠ "" ∧ d.definition ≠ "" then
      ["(" ++ d.partOfSpeech ++ ") " ++ d.definition]
    else if d.definition ≠ "" then [d.definition] else []
  let defs1 :=
    if d.exampleSentence ≠ "" then
      defs0 ++ ["Example: " ++ pyStrip (stripTags d.exampleSentence)]
    else defs0
  let defs2 :=
    if d.body ≠ "" then defs1 ++ [pyStrip (stripTags d.body)] else defs1
  { word := word, phonetic := phonetic, definitions := padDefinitions word defs2 }

/-- The DOM elements that strategy 2 queries: each field is the inner text of
the corresponding selector when the element is present. -/
structure DomPage where
  wordEl : Option String
  phoneticEl : Option String
  defEl : Option String
  posEl : Option String
  exampleEl : Option String
  explanationEl : Option String
deriving DecidableEq, Repr

/-- The definitions list assembled by the DOM strategy (main.py lines 137-151). -/
def domDefinitions (page : DomPage) : List String :=
  let defs0 : List String :=
    match page.defEl with
    | Option.some dt =>
      let pos := match page.posEl with
        | Option.some p => pyStrip p
        | Option.none => ""
      let defn := pyStrip dt
      [if pos ≠ "" then "(" ++ pos ++ ") " ++ defn else defn]
    | Option.none => []
  let defs1 := match page.exampleEl with
    | Option.some e => defs0 ++ ["Example: " ++ pyStrip e]
    | Option.none => defs0
  match page.explanationEl with
  | Option.some x => defs1 ++ [pyStrip x]
  | Option.none => defs1

/-- Strategy 2 of fetch_word_of_the_day (main.py lines 127-163): DOM scraping,
raising ValueError when the heading is absent or the collected data is
incomplete. -/
def domStrategy (page : DomPage) : Except PyErr WorkRecord :=
  match page.wordEl with
  | Option.none => Except.error (PyErr.valueError "Could not locate WOTD heading element")
  | Option.some wtext =>
    let word := pyLower (pyStrip wtext)
    let phonetic := match page.phoneticEl with
      | Option.some p => pyStrip p
      | Option.none => ""
    let defs := domDefinitions page
    if word = "" ∨ defs.length < 1 then
      Except.error (PyErr.valueError "Incomplete data")
    else
      Except.ok { word := word, phonetic := phonetic, definitions := padDefinitions word defs }

/-- The external world seen by the try block of fetch_word_of_the_day:
the outcome of browser launch and navigation, the optional embedded JSON
script element (whose parse or headword access may itself raise), and the
DOM as seen by the strategy-2 selectors. -/
structure FetchEnv where
  navResult : Except PyErr Unit
  jsonEl : Option (Except PyErr WotdJson)
  page : DomPage

/-- The body of the try block of fetch_word_of_the_day (main.py lines 75-163):
strategy 1 when the embedded JSON element exists, strategy 2 otherwise. -/
def primaryFetch (env : FetchEnv) : Except PyErr WorkRecord :=
  match env.navResult with
  | Except.error e => Except.error e
  | Except.ok _ =>
    match env.jsonEl with
    | Option.some parse =>
      match parse with
      | Except.error e => Except.error e
      | Except.ok d => Except.ok (jsonStrategy d)
    | Option.none => domStrategy env.page

/-- The environment of send_alert: the three credential variables and whether
SMTP delivery raises. -/
structure AlertEnv where
  emailUser : Option String
  emailPass : Option String
  recipientEmail : Option String
  smtpDeliveryFails : Bool

/-- What one call to send_alert did; the function catches every delivery
exception internally, so its type is total — no error escapes it. -/
inductive AlertOutcome where
  | skippedNoCreds
  | sent
  | failedSwallowed
deriving DecidableEq, Repr

/-- send_alert (main.py lines 39-57): skip when credentials are missing,
otherwise attempt SMTP delivery and swallow any exception. -/
def send_alert (env : AlertEnv) : AlertOutcome :=
  if !(truthy env.emailUser && truthy env.emailPass && truthy env.recipientEmail) then
    AlertOutcome.skippedNoCreds
  else if env.smtpDeliveryFails then AlertOutcome.failedSwallowed
  else AlertOutcome.sent

/-- load_fallback (main.py lines 60-66): random.choice over the parsed
entries of local_fallback.json; ix is the random draw, reduced modulo the
length; the empty dataset raises IndexError. -/
def load_fallback (entries : List WorkRecord) (ix : Nat) : Except PyErr WorkRecord :=
  match entries with
  | [] => Except.error PyErr.indexError
  | e :: es =>
    Except.ok ((e :: es).get ⟨ix % (e :: es).length, Nat.mod_lt _ (Nat.succ_pos es.length)⟩)

/-- The observable outcome of one fetch_word_of_the_day call: the returned
value (or escaped error), how many times send_alert was invoked, what the
alert did, and whether the fallback path was taken. -/
structure FetchOutcome where
  result : Except PyErr WorkRecord
  alertCalls : Nat
  alertOutcome : Option AlertOutcome
  usedFallback : Bool

/-- fetch_word_of_the_day (main.py lines 69-171): run the primary scraping
path; on any exception, send one alert and return a fallback entry. -/
def fetch_word_of_the_day (env : FetchEnv) (aenv : AlertEnv)
    (entries : List WorkRecord) (ix : Nat) : FetchOutcome :=
  match primaryFetch env with
  | Except.ok r =>
    { result := Except.ok r, alertCalls := 0, alertOutcome := Option.none, usedFallback := false }
  | Except.error _ =>
    { result := load_fallback entries ix
      alertCalls := 1
      alertOutcome := Option.some (send_alert aenv)
      usedFallback := true }

/-- The padded definitions list always has exactly 3 entries. -/
theorem padDefinitions_length (w : String) (ds : List String) :
    (padDefinitions w ds).length = 3 := by
  simp [padDefinitions]
  omega

/-- A record produced by the DOM strategy has a non-empty word and exactly
3 definitions. -/
theorem domStrategy_ok {page : DomPage} {r : WorkRecord}
    (h : domStrategy page = Except.ok r) : r.word ≠ "" ∧ r.definitions.length = 3 := by
  unfold domStrategy at h
  cases hw : page.wordEl with
  | none => rw [hw] at h; exact absurd h (by simp)
  | some wtext =>
    rw [hw] at h
    simp only at h
    by_cases hc : pyLower (pyStrip wtext) = "" ∨ (domDefinitions page).length < 1
    · rw [if_pos hc] at h; exact absurd h (by simp)
    · rw [if_neg hc] at h
      have hr := Except.ok.inj h
      push_neg at hc
      constructor
      · rw [← hr]; exact hc.1
      · rw [← hr]; exact padDefinitions_length _ _

/-- A record produced by the primary path has exactly 3 definitions, and a
non-empty word when it came from the DOM strategy. -/
theorem primaryFetch_ok {env : FetchEnv} {r : WorkRecord}
    (h : primaryFetch env = Except.ok r) :
    r.definitions.length = 3 ∧ (env.jsonEl = Option.none → r.word ≠ "") := by
  unfold primaryFetch at h
  cases hn : env.navResult with
  | error e => rw [hn] at h; exact absurd h (by simp)
  | ok u =>
    rw [hn] at h
    cases hj : env.jsonEl with
    | some parse =>
      rw [hj] at h
      cases parse with
      | error e => exact absurd h (by simp)
      | ok d =>
        have hr := Except.ok.inj h
        constructor
        · rw [← hr]; exact padDefinitions_length _ _
        · intro hnone; simp at hnone
    | none =>
      rw [hj] at h
      have := domStrategy_ok h
      exact ⟨this.2, fun _ => this.1⟩

/-- An entry returned by load_fallback belongs to the dataset. -/
theorem load_fallback_mem {entries : List WorkRecord} {ix : Nat} {r : WorkRecord}
    (h : load_fallback entries ix = Except.ok r) : r ∈ entries := by
  match entries with
  | [] => simp [load_fallback] at h
  | e :: es =>
    simp only [load_fallback] at h
    have hr := Except.ok.inj h
    rw [← hr]
    exact List.get_mem _ _ _

/-- A parsed Python JSON value, as far as the validation in generate_script
inspects it. -/
inductive PyVal where
  | str (s : String)
  | list (xs : List PyVal)
  | num (n : Int)
  | pyNone

/-- The dict produced by json.loads of the model output; each field is the
result of parsed.get on the corresponding key, pyNone when absent. -/
structure ParsedScript where
  word : PyVal
  definitions : PyVal
  narration : PyVal
  on_screen_text : PyVal
  background_hex : PyVal
  phonetic : PyVal

/-- The assert block of generate_script (main.py lines 233-237), in source
order; the first failing assert raises AssertionError. -/
def validate_script (p : ParsedScript) : Except PyErr Unit :=
  match p.word with
  | PyVal.str _ =>
    match p.definitions with
    | PyVal.list ds =>
      if ds.length = 3 then
        match p.narration with
        | PyVal.str nar =>
          if nar.length ≤ 240 then
            match p.on_screen_text with
            | PyVal.list ost =>
              if ost.length = 2 then
                match p.background_hex with
                | PyVal.str bg =>
                  if pyStartsWith bg "#" then Except.ok ()
                  else Except.error (PyErr.assertionError "background_hex")
                | _ => Except.error (PyErr.assertionError "background_hex")
              else Except.error (PyErr.assertionError "on_screen_text")
            | _ => Except.error (PyErr.assertionError "on_screen_text")
          else Except.error (PyErr.assertionError "narration")
        | _ => Except.error (PyErr.assertionError "narration")
      else Except.error (PyErr.assertionError "definitions")
    | _ => Except.error (PyErr.assertionError "definitions")
  | _ => Except.error (PyErr.assertionError "word must be a string")

/-- The external world of one claude-CLI invocation: the process exit code,
its stderr, and the result of fence-stripping then json.loads on its stdout. -/
structure CliEnv where
  returncode : Int
  stderr : String
  parsed : Except PyErr ParsedScript

/-- generate_script (main.py lines 191-239): fail on a non-zero exit status,
parse the output, run the assert block, and return the parsed dict. -/
def generate_script (env : CliEnv) : Except PyErr ParsedScript :=
  if env.returncode ≠ 0 then
    Except.error (PyErr.runtimeError ("claude CLI failed: " ++ env.stderr))
  else
    match env.parsed with
    | Except.error e => Except.error e
    | Except.ok p =>
      match validate_script p with
      | Except.error e => Except.error e
      | Except.ok _ => Except.ok p

/-- Phase 1 of main (main.py lines 461-467) in normal mode: generate the
script, set its phonetic key from the fetched record, and write it to
data_bridge.json; the returned document is exactly the persisted one. -/
def phase1_generate_and_persist (env : CliEnv) (word_data : WorkRecord) :
    Except PyErr ParsedScript :=
  match generate_script env with
  | Except.error e => Except.error e
  | Except.ok script => Except.ok { script with phonetic := PyVal.str word_data.phonetic }

/-- Value of a single hexadecimal digit. -/
def hexDigitVal (c : Char) : Option Nat :=
  if '0' ≤ c ∧ c ≤ '9' then Option.some (c.toNat - 48)
  else if 'a' ≤ c ∧ c ≤ 'f' then Option.some (c.toNat - 97 + 10)
  else if 'A' ≤ c ∧ c ≤ 'F' then Option.some (c.toNat - 65 + 10)
  else Option.none

/-- Value of a two-digit hexadecimal channel. -/
def channelVal (hi lo : Char) : Option Nat :=
  match hexDigitVal hi, hexDigitVal lo with
  | Option.some h, Option.some l => Option.some (h * 16 + l)
  | _, _ => Option.none

/-- Modelled from the spec: the darkness predicate on the background color —
a seven-character hex code whose red, green and blue channels are each below
the threshold 0x44 (the prompt in main.py asks for a value below 444444 hex,
but no code in src enforces it). -/
def isDarkHex (s : String) : Bool :=
  match s.data with
  | ['#', r1, r2, g1, g2, b1, b2] =>
    match channelVal r1 r2, channelVal g1 g2, channelVal b1 b2 with
    | Option.some r, Option.some g, Option.some b =>
      decide (r < 68 ∧ g < 68 ∧ b < 68)
    | _, _, _ => false
  | _ => false

/-- A document accepted by validate_script satisfies the four schema checks
of the assert block. -/
theorem validate_script_ok {p : ParsedScript} (h : validate_script p = Except.ok ()) :
    (∃ s, p.word = PyVal.str s) ∧
    (∃ ds, p.definitions = PyVal.list ds ∧ ds.length = 3) ∧
    (∃ nar, p.narration = PyVal.str nar ∧ nar.length ≤ 240) ∧
    (∃ ost, p.on_screen_text = PyVal.list ost ∧ ost.length = 2) ∧
    (∃ bg, p.background_hex = PyVal.str bg ∧ pyStartsWith bg "#" = true) := by
  unfold validate_script at h
  repeat' split at h
  all_goals simp_all

/-- A document returned by generate_script was parsed from the CLI output and
passed the assert block. -/
theorem generate_script_ok {env : CliEnv} {p : ParsedScript}
    (h : generate_script env = Except.ok p) :
    env.parsed = Except.ok p ∧ validate_script p = Except.ok () := by
  unfold generate_script at h
  split at h
  · exact absurd h (by simp)
  · split at h
    · exact absurd h (by simp)
    · split at h
      · exact absurd h (by simp)
      · have hqp := Except.ok.inj h
        subst hqp
        simp_all

/-- The file-system state that the Phase 2 cleanup inspects: size of the
export file when it exists, and presence of the temp directory. -/
structure P2Fs where
  exportFile : Option Nat
  tempDirPresent : Bool
deriving DecidableEq, Repr

/-- What one call to cleanup did to the file system and whether rmtree ran. -/
structure CleanupResult where
  fs : P2Fs
  rmtreeCalled : Bool
deriving DecidableEq, Repr

/-- cleanup (main.py lines 415-427): remove temp only when the export exists
and is at least 1,048,576 bytes; every path returns normally (rmtree runs
with errors ignored), so the function is total. -/
def cleanup (fs : P2Fs) : CleanupResult :=
  match fs.exportFile with
  | Option.none => { fs := fs, rmtreeCalled := false }
  | Option.some size =>
    if size < 1048576 then { fs := fs, rmtreeCalled := false }
    else { fs := { fs with tempDirPresent := false }, rmtreeCalled := true }

/-- The external world of one pipeline run (main.py main): presence and
content of the cached checkpoint and audio, plus the outcome of each
external stage. -/
structure RunEnv where
  bridgeExists : Bool
  bridgeParse : Except PyErr ParsedScript
  audioExists : Bool
  fetchEnv : FetchEnv
  alertEnv : AlertEnv
  fallbackEntries : List WorkRecord
  fallbackIx : Nat
  cliEnv : CliEnv
  ttsResult : Except PyErr Unit
  comfyResult : Except PyErr Unit
  ffmpegResult : Except PyErr Unit
  fsAfterMerge : P2Fs

/-- The observable outcome of one run of main: the final result and how many
times the generative-text (claude) and TTS (ElevenLabs) calls were attempted. -/
structure RunOutcome where
  result : Except PyErr Unit
  claudeCalls : Nat
  ttsCalls : Nat

/-- Stages 4 and 5 plus cleanup (main.py lines 479-486), common to both modes. -/
def phase45 (env : RunEnv) (claudeCalls ttsCalls : Nat) : RunOutcome :=
  match env.comfyResult with
  | Except.error e => { result := Except.error e, claudeCalls := claudeCalls, ttsCalls := ttsCalls }
  | Except.ok _ =>
    match env.ffmpegResult with
    | Except.error e => { result := Except.error e, claudeCalls := claudeCalls, ttsCalls := ttsCalls }
    | Except.ok _ =>
      let _ := cleanup env.fsAfterMerge
      { result := Except.ok (), claudeCalls := claudeCalls, ttsCalls := ttsCalls }

/-- Phase 2 branching of main (main.py lines 471-477): in test mode require
the cached audio artifact and skip TTS, otherwise call the TTS backend. -/
def phase2Run (testMode : Bool) (env : RunEnv) (claudeCalls : Nat) : RunOutcome :=
  if testMode then
    if !env.audioExists then
      { result := Except.error (PyErr.runtimeError "Test mode requires existing temp/audio.mp3")
        claudeCalls := claudeCalls, ttsCalls := 0 }
    else phase45 env claudeCalls 0
  else
    match env.ttsResult with
    | Except.error e => { result := Except.error e, claudeCalls := claudeCalls, ttsCalls := 1 }
    | Except.ok _ => phase45 env claudeCalls 1

/-- main (main.py lines 432-491) after argument parsing: Phase 1 branching on
test mode, then Phase 2 and the remaining stages. -/
def pipelineRun (testMode : Bool) (env : RunEnv) : RunOutcome :=
  if testMode then
    if !env.bridgeExists then
      { result := Except.error (PyErr.runtimeError "Test mode requires existing data_bridge.json")
        claudeCalls := 0, ttsCalls := 0 }
    else
      match env.bridgeParse with
      | Except.error e => { result := Except.error e, claudeCalls := 0, ttsCalls := 0 }
      | Except.ok _ => phase2Run true env 0
  else
    match (fetch_word_of_the_day env.fetchEnv env.alertEnv env.fallbackEntries env.fallbackIx).result with
    | Except.error e => { result := Except.error e, claudeCalls := 0, ttsCalls := 0 }
    | Except.ok wd =>
      match phase1_generate_and_persist env.cliEnv wd with
      | Except.error e => { result := Except.error e, claudeCalls := 1, ttsCalls := 0 }
      | Except.ok _ => phase2Run false env 1

/-- The rejection entry appended to HANDOVER.md by the approval gate
(approve.py lines 70-71), parameterized by the current timestamp. -/
def rejectionEntry (now videoName : String) : String :=
  "## Rejection Log\n\n- **" ++ now ++ "**: User rejected video `" ++ videoName ++ "`\n"

/-- The observable outcome of the approval-gate prompt loop: the path
returned on approval, the sys.exit code on rejection, the handover entry
appended on rejection, and how many re-prompts happened before the
decision; all fields empty when the input list ran out with no decision. -/
structure GateOutcome where
  returned : Option String
  exitCode : Option Nat
  rejectionLogged : Option String
  reprompts : Nat
deriving DecidableEq, Repr

/-- The prompt loop of approval_gate (approve.py lines 63-74) over the
sequence of lines typed on stdin, after the latest video was located and
opened; each answer is stripped and lowercased before comparison. -/
def approval_gate (now videoName : String) : List String → GateOutcome
  | [] => { returned := Option.none, exitCode := Option.none
            rejectionLogged := Option.none, reprompts := 0 }
  | c :: rest =>
    let choice := pyLower (pyStrip c)
    if choice = "y" then
      { returned := Option.some videoName, exitCode := Option.none
        rejectionLogged := Option.none, reprompts := 0 }
    else if choice = "n" then
      { returned := Option.none, exitCode := Option.some 0
        rejectionLogged := Option.some (rejectionEntry now videoName), reprompts := 0 }
    else
      let r := approval_gate now videoName rest
      { r with reprompts := r.reprompts + 1 }

/-- The post_info object of the TikTok init request (approve.py lines 101-107). -/
structure InitPostInfo where
  title : String
  privacy_level : String
  disable_duet : Bool
  disable_comment : Bool
  disable_stitch : Bool
deriving DecidableEq, Repr

/-- The source_info object of the TikTok init request (approve.py lines 108-113). -/
structure InitSourceInfo where
  source : String
  video_size : Nat
  chunk_size : Nat
  total_chunk_count : Nat
deriving DecidableEq, Repr

/-- The body of the TikTok init request. -/
structure InitBody where
  post_info : InitPostInfo
  source_info : InitSourceInfo
deriving DecidableEq, Repr

/-- The init request body built by upload_tiktok (approve.py lines 100-114):
the title is the caption sliced to 150 characters, and the privacy level is
always the private SELF_ONLY setting. -/
def buildInitBody (caption : String) (file_size : Nat) : InitBody :=
  { post_info :=
      { title := pyTake 150 caption
        privacy_level := "SELF_ONLY"
        disable_duet := false
        disable_comment := false
        disable_stitch := false }
    source_info :=
      { source := "FILE_UPLOAD"
        video_size := file_size
        chunk_size := file_size
        total_chunk_count := 1 } }

/-- What the init endpoint answered: HTTP status, the code under the error
key of the JSON body if any, and the upload_url/publish_id pair when the
data object carries both. -/
structure InitResp where
  status : Nat
  errorCode : Option String
  dataField : Option (String × String)
deriving DecidableEq, Repr

/-- The result of one requests call: a response, or a raised
requests.exceptions.RequestException. -/
inductive ReqResult (α : Type) where
  | ok (a : α)
  | requestException (msg : String)
deriving DecidableEq, Repr

/-- The external world of one upload_tiktok call: the access token, the
stat of the video file, the init response, the file read, and the PUT
response status. -/
structure TiktokEnv where
  token : Option String
  statSize : Except PyErr Nat
  initResult : ReqResult InitResp
  fileRead : Except PyErr Unit
  uploadResult : ReqResult Nat

/-- The observable outcome of upload_tiktok: its return value — or an
exception that escaped, since the adapter catches only RequestException —
and the init body it posted when a live attempt was reached. -/
structure TiktokOutcome where
  result : Except PyErr Bool
  initBodySent : Option InitBody

/-- upload_tiktok (approve.py lines 79-150): skip on a missing or placeholder
token; otherwise stat the file, post the init request, distinguish an invalid
token from other non-200 answers, read and PUT the video, and return whether
the upload succeeded. Only RequestException is caught; a missing data key in
a 200 init response raises KeyError past the handler, and an OSError from
stat or the file read also escapes. -/
def upload_tiktok (env : TiktokEnv) (caption : String) : TiktokOutcome :=
  if !truthy env.token || pyStartsWith (env.token.getD "") "your_" then
    { result := Except.ok false, initBodySent := Option.none }
  else
    match env.statSize with
    | Except.error e => { result := Except.error e, initBodySent := Option.none }
    | Except.ok file_size =>
      let init_body := buildInitBody caption file_size
      match env.initResult with
      | ReqResult.requestException _ =>
        { result := Except.ok false, initBodySent := Option.some init_body }
      | ReqResult.ok resp =>
        if resp.status = 401 ∨ resp.errorCode = Option.some "access_token_invalid" then
          { result := Except.ok false, initBodySent := Option.some init_body }
        else if resp.status ≠ 200 then
          { result := Except.ok false, initBodySent := Option.some init_body }
        else
          match resp.dataField with
          | Option.none =>
            { result := Except.error (PyErr.keyError "data"), initBodySent := Option.some init_body }
          | Option.some _ =>
            match env.fileRead with
            | Except.error e =>
              { result := Except.error e, initBodySent := Option.some init_body }
            | Except.ok _ =>
              match env.uploadResult with
              | ReqResult.requestException _ =>
                { result := Except.ok false, initBodySent := Option.some init_body }
              | ReqResult.ok st =>
                if st = 200 ∨ st = 201 then
                  { result := Except.ok true, initBodySent := Option.some init_body }
                else
                  { result := Except.ok false, initBodySent := Option.some init_body }

/-- The external world of one upload_instagram call: credentials, whether the
instagrapi import succeeds, and whether login and clip_upload succeed. -/
structure InstaEnv where
  username : Option String
  password : Option String
  importOk : Bool
  loginOk : Bool
  clipUploadOk : Bool

/-- upload_instagram (approve.py lines 153-184): skip on missing or
placeholder credentials; every exception inside the attempt (import, login,
upload) is caught and turned into False, so the function is total. -/
def upload_instagram (env : InstaEnv) : Bool :=
  if !truthy env.username || !truthy env.password
      || pyStartsWith (env.username.getD "") "your_" then false
  else if !env.importOk then false
  else if !env.loginOk then false
  else env.clipUploadOk

/-- The observable outcome of distribute: its return value (or the exception
that escaped from upload_tiktok), each platform's recorded result, and
whether control ever reached the Instagram attempt. -/
structure DistOutcome where
  result : Except PyErr Bool
  tiktokResult : Option Bool
  instagramAttempted : Bool
  instagramResult : Option Bool

/-- distribute (approve.py lines 187-200): attempt TikTok, then Instagram,
and succeed when any platform returned True. An exception escaping
upload_tiktok propagates before the Instagram call is made. -/
def distribute (tenv : TiktokEnv) (ienv : InstaEnv) (caption : String) : DistOutcome :=
  match (upload_tiktok tenv caption).result with
  | Except.error e =>
    { result := Except.error e, tiktokResult := Option.none
      instagramAttempted := false, instagramResult := Option.none }
  | Except.ok t =>
    let i := upload_instagram ienv
    { result := Except.ok (t || i), tiktokResult := Option.some t
      instagramAttempted := true, instagramResult := Option.some i }

/-- The Phase 3 file-system and log state that main manipulates after
distribution. -/
structure P3State where
  exportsHasVideo : Bool
  archived : Bool
  tempDirPresent : Bool
  completionLogged : Bool
deriving DecidableEq, Repr

/-- archive_video (approve.py lines 205-214): move the export into the dated
archive directory. -/
def archive_video (st : P3State) : P3State :=
  { st with exportsHasVideo := false, archived := true }

/-- cleanup_temp (approve.py lines 217-223): wipe the temp directory. -/
def cleanup_temp (st : P3State) : P3State :=
  { st with tempDirPresent := false }

/-- finalize_handover (approve.py lines 232-243): append the completion entry
to HANDOVER.md. -/
def finalize_handover (st : P3State) : P3State :=
  { st with completionLogged := true }

/-- The observable outcome of the tail of main in approve.py: final state,
sys.exit code if any, and whether archive_video was invoked. -/
structure P3Outcome where
  st : P3State
  exitCode : Option Nat
  archiveCalled : Bool
deriving DecidableEq, Repr

/-- The tail of main in approve.py (lines 262-277): on a failed distribution
exit with code 1 leaving everything in place; on success archive, clean the
temp directory, and log completion. -/
def main_after_distribute (success : Bool) (st : P3State) : P3Outcome :=
  if !success then
    { st := st, exitCode := Option.some 1, archiveCalled := false }
  else
    { st := finalize_handover (cleanup_temp (archive_video st))
      exitCode := Option.none, archiveCalled := true }

/-- Modelled from the spec: entries of the local fallback dataset
(local_fallback.json is data of this repository that is not under src) are
well-formed seed records — exactly 3 definitions and a non-empty word. -/
def fallbackWellFormed (entries : List WorkRecord) : Bool :=
  entries.all (fun e => e.definitions.length == 3 && e.word != "")

/-- A member of a well-formed fallback dataset has 3 definitions and a
non-empty word. -/
theorem fallbackWellFormed_mem {entries : List WorkRecord} {r : WorkRecord}
    (hwf : fallbackWellFormed entries = true) (hm : r ∈ entries) :
    r.definitions.length = 3 ∧ r.word ≠ "" := by
  have := List.all_eq_true.mp hwf r hm
  simp at this
  exact ⟨this.1, this.2⟩

/-- When the primary path succeeds, fetch_word_of_the_day returns it without
alerting or falling back. -/
theorem fetch_ok_of_primary {env : FetchEnv} (aenv : AlertEnv)
    (entries : List WorkRecord) (ix : Nat) {r0 : WorkRecord}
    (hp : primaryFetch env = Except.ok r0) :
    fetch_word_of_the_day env aenv entries ix =
      { result := Except.ok r0, alertCalls := 0
        alertOutcome := Option.none, usedFallback := false } := by
  unfold fetch_word_of_the_day; rw [hp]

/-- When the primary path raises, fetch_word_of_the_day alerts once and
returns the fallback draw. -/
theorem fetch_err_of_primary {env : FetchEnv} (aenv : AlertEnv)
    (entries : List WorkRecord) (ix : Nat) {e : PyErr}
    (hp : primaryFetch env = Except.error e) :
    fetch_word_of_the_day env aenv entries ix =
      { result := load_fallback entries ix, alertCalls := 1
        alertOutcome := Option.some (send_alert aenv), usedFallback := true } := by
  unfold fetch_word_of_the_day; rw [hp]

/-- A DOM page with no elements present. -/
def emptyDomPage : DomPage :=
  { wordEl := Option.none, phoneticEl := Option.none, defEl := Option.none
    posEl := Option.none, exampleEl := Option.none, explanationEl := Option.none }

/-- An alert environment with no credentials configured. -/
def quietAlertEnv : AlertEnv :=
  { emailUser := Option.none, emailPass := Option.none
    recipientEmail := Option.none, smtpDeliveryFails := false }

/-- A one-entry well-formed fallback dataset. -/
def demoFallback : List WorkRecord :=
  [{ word := "serendipity", phonetic := "[ser-uhn-dip-i-tee]"
     definitions := ["(noun) an aptitude for making fortunate discoveries"
                     , "Example: Their meeting was pure serendipity."
                     , "A favorite of crossword setters everywhere."] }]

/-- Embedded JSON whose headword is the empty string but which carries a
definition, as the page could serve it. -/
def c1JsonData : WotdJson :=
  { headword := "", phoneticHtml := "", definition := "a test definition"
    partOfSpeech := "noun", exampleSentence := "", body := "" }

/-- A fetch environment where navigation succeeds and the embedded JSON
element is present with an empty headword. -/
def c1FetchEnv : FetchEnv :=
  { navResult := Except.ok (), jsonEl := Option.some (Except.ok c1JsonData)
    page := emptyDomPage }

/-- C1 counterexample: the embedded-JSON strategy performs no non-emptiness
check on the headword, so with an empty headword fetch_word_of_the_day
returns a record whose word is the empty string — even though the fallback
dataset is well-formed — refuting the claim that every returned record has a
non-empty term. -/
theorem c1_counterexample :
    ((fetch_word_of_the_day c1FetchEnv quietAlertEnv demoFallback 0).result.toOption.map
        WorkRecord.word) = Option.some "" ∧
    fallbackWellFormed demoFallback = true := by
  exact ⟨rfl, by decide⟩

/-- C1 (amended): every record returned by fetch_word_of_the_day has a
definitions list of length exactly 3 (given well-formed fallback entries);
the term is non-empty for records produced by the DOM strategy or drawn from
the fallback dataset, while the embedded-JSON strategy can return an empty
term when the embedded headword is blank. -/
theorem c1_acquirer_record_shape (env : FetchEnv) (aenv : AlertEnv)
    (entries : List WorkRecord) (ix : Nat) (r : WorkRecord)
    (hwf : fallbackWellFormed entries = true)
    (h : (fetch_word_of_the_day env aenv entries ix).result = Except.ok r) :
    r.definitions.length = 3 ∧
    (((fetch_word_of_the_day env aenv entries ix).usedFallback = true ∨
        env.jsonEl = Option.none) → r.word ≠ "") := by
  cases hp : primaryFetch env with
  | ok r0 =>
    rw [fetch_ok_of_primary aenv entries ix hp] at h ⊢
    simp at h
    subst h
    obtain ⟨hlen, hdom⟩ := primaryFetch_ok hp
    refine ⟨hlen, ?_⟩
    intro hdisj
    cases hdisj with
    | inl hf => simp at hf
    | inr hj => exact hdom hj
  | error e =>
    rw [fetch_err_of_primary aenv entries ix hp] at h
    simp at h
    have hm := load_fallback_mem h
    have hwfm := fallbackWellFormed_mem hwf hm
    exact ⟨hwfm.1, fun _ => hwfm.2⟩

/-- A DOM page carrying a word and one definition. -/
def c1DomPage : DomPage :=
  { wordEl := Option.some "Serendipity"
    phoneticEl := Option.some "[ser-uhn-dip-i-tee]"
    defEl := Option.some "an aptitude for making fortunate discoveries"
    posEl := Option.some "noun", exampleEl := Option.none, explanationEl := Option.none }

/-- A fetch environment taking the DOM-scraping strategy. -/
def c1WitnessEnv : FetchEnv :=
  { navResult := Except.ok (), jsonEl := Option.none, page := c1DomPage }

/-- The record the DOM strategy produces for c1DomPage. -/
def c1WitnessRecord : WorkRecord :=
  { word := "serendipity", phonetic := "[ser-uhn-dip-i-tee]"
    definitions := ["(noun) an aptitude for making fortunate discoveries"
                    , fillerPhrase "serendipity", fillerPhrase "serendipity"] }

/-- Witness for the amended C1 at a concrete DOM-strategy input. -/
theorem c1_acquirer_record_shape_witness :
    fallbackWellFormed demoFallback = true ∧
    c1WitnessRecord.definitions.length = 3 ∧ c1WitnessRecord.word ≠ "" :=
  ⟨by decide
   , (c1_acquirer_record_shape c1WitnessEnv quietAlertEnv demoFallback 0 c1WitnessRecord
       (by decide) (by rfl)).1
   , (c1_acquirer_record_shape c1WitnessEnv quietAlertEnv demoFallback 0 c1WitnessRecord
       (by decide) (by rfl)).2 (Or.inr rfl)⟩

/-- C3: if the primary acquisition path raises, exactly one send_alert call
occurs — whatever the alert environment, so a swallowed delivery failure
neither propagates nor changes the outcome — and the returned value is the
fallback draw, an entry of the local dataset, not a raised error. -/
theorem c3_fallback_and_single_alert (env : FetchEnv) (aenv : AlertEnv)
    (entries : List WorkRecord) (ix : Nat) (e : PyErr)
    (hp : primaryFetch env = Except.error e) (hne : entries ≠ []) :
    (fetch_word_of_the_day env aenv entries ix).alertCalls = 1 ∧
    (fetch_word_of_the_day env aenv entries ix).result = load_fallback entries ix ∧
    ∃ r, load_fallback entries ix = Except.ok r ∧ r ∈ entries := by
  rw [fetch_err_of_primary aenv entries ix hp]
  refine ⟨rfl, rfl, ?_⟩
  match entries, hne with
  | a :: as, _ =>
    refine ⟨_, rfl, ?_⟩
    exact List.get_mem _ _ _

/-- A fetch environment whose navigation raises a timeout. -/
def c3FailEnv : FetchEnv :=
  { navResult := Except.error (PyErr.valueError "Timeout 30000ms exceeded")
    jsonEl := Option.none, page := emptyDomPage }

/-- Witness for C3 at a concrete failing navigation, with unconfigured
alert credentials. -/
theorem c3_fallback_and_single_alert_witness :
    (fetch_word_of_the_day c3FailEnv quietAlertEnv demoFallback 5).alertCalls = 1 ∧
    (fetch_word_of_the_day c3FailEnv quietAlertEnv demoFallback 5).result =
      load_fallback demoFallback 5 ∧
    ∃ r, load_fallback demoFallback 5 = Except.ok r ∧ r ∈ demoFallback :=
  c3_fallback_and_single_alert c3FailEnv quietAlertEnv demoFallback 5
    (PyErr.valueError "Timeout 30000ms exceeded") (by rfl) (by decide)

/-- A parsed model output that passes every assert of generate_script yet
has a plainly non-dark background color. -/
def c2BadParsed : ParsedScript :=
  { word := PyVal.str "nimbus"
    definitions := PyVal.list [PyVal.str "(noun) a luminous cloud"
                               , PyVal.str "Example: a nimbus of fame"
                               , PyVal.str "an aura surrounding a figure"]
    narration := PyVal.str "Nimbus: the glow around the famous, and the cloud about to rain on them."
    on_screen_text := PyVal.list [PyVal.str "NIMBUS", PyVal.str "Glow or downpour"]
    background_hex := PyVal.str "#ffffff"
    phonetic := PyVal.pyNone }

/-- A CLI environment returning c2BadParsed with exit status zero. -/
def c2BadEnv : CliEnv := { returncode := 0, stderr := "", parsed := Except.ok c2BadParsed }

/-- The word record feeding the c2 counterexample run. -/
def c2BadWordData : WorkRecord :=
  { word := "nimbus", phonetic := "[nim-buhs]"
    definitions := ["(noun) a luminous cloud", "Example: a nimbus of fame"
                    , "an aura surrounding a figure"] }

/-- The document the pipeline persists for c2BadEnv. -/
def c2BadPersisted : ParsedScript :=
  { c2BadParsed with phonetic := PyVal.str "[nim-buhs]" }

/-- C2 counterexample: validation checks only that the color starts with a
hash — not darkness — so a document whose background_hex is the maximally
bright color is persisted to the checkpoint, refuting the claim that a
document with a non-dark background color is never written. -/
theorem c2_counterexample :
    phase1_generate_and_persist c2BadEnv c2BadWordData = Except.ok c2BadPersisted ∧
    c2BadPersisted.background_hex = PyVal.str "#ffffff" ∧
    isDarkHex "#ffffff" = false :=
  ⟨by rfl, by rfl, by decide⟩

/-- C2 (amended): every document persisted to the checkpoint file satisfies
narration length at most 240, exactly 2 on-screen phrases, exactly 3
definitions, and a background color string starting with a hash character —
the darkness of the color is requested in the prompt but not enforced by the
validation, so it is not an invariant of the persisted document. -/
theorem c2_persisted_document_valid (env : CliEnv) (wd : WorkRecord) (doc : ParsedScript)
    (h : phase1_generate_and_persist env wd = Except.ok doc) :
    (∃ nar, doc.narration = PyVal.str nar ∧ nar.length ≤ 240) ∧
    (∃ ost, doc.on_screen_text = PyVal.list ost ∧ ost.length = 2) ∧
    (∃ ds, doc.definitions = PyVal.list ds ∧ ds.length = 3) ∧
    (∃ bg, doc.background_hex = PyVal.str bg ∧ pyStartsWith bg "#" = true) := by
  unfold phase1_generate_and_persist at h
  cases hg : generate_script env with
  | error e => rw [hg] at h; exact absurd h (by simp)
  | ok p =>
    rw [hg] at h
    simp at h
    obtain ⟨hparse, hval⟩ := generate_script_ok hg
    obtain ⟨_, ⟨ds, hds, hds3⟩, ⟨nar, hnar, hnarlen⟩, ⟨ost, host, host2⟩, ⟨bg, hbg, hbgp⟩⟩ :=
      validate_script_ok hval
    subst h
    exact ⟨⟨nar, hnar, hnarlen⟩, ⟨ost, host, host2⟩, ⟨ds, hds, hds3⟩, ⟨bg, hbg, hbgp⟩⟩

/-- A parsed model output with a dark background passing validation. -/
def c2GoodParsed : ParsedScript :=
  { word := PyVal.str "ephemeral"
    definitions := PyVal.list [PyVal.str "(adjective) lasting a very short time"
                               , PyVal.str "Example: an ephemeral bloom"
                               , PyVal.str "short-lived by nature"]
    narration := PyVal.str "Ephemeral: here one moment, gone the next."
    on_screen_text := PyVal.list [PyVal.str "EPHEMERAL", PyVal.str "Blink and it is gone"]
    background_hex := PyVal.str "#1a1a2e"
    phonetic := PyVal.pyNone }

/-- A CLI environment returning c2GoodParsed with exit status zero. -/
def c2GoodEnv : CliEnv := { returncode := 0, stderr := "", parsed := Except.ok c2GoodParsed }

/-- The word record feeding the c2 witness run. -/
def c2GoodWordData : WorkRecord :=
  { word := "ephemeral", phonetic := "[ih-fem-er-uhl]"
    definitions := ["(adjective) lasting a very short time"
                    , "Example: an ephemeral bloom", "short-lived by nature"] }

/-- The document the pipeline persists for c2GoodEnv. -/
def c2GoodPersisted : ParsedScript :=
  { c2GoodParsed with phonetic := PyVal.str "[ih-fem-er-uhl]" }

/-- Witness for the amended C2 at a concrete valid model output. -/
theorem c2_persisted_document_valid_witness :
    (∃ nar, c2GoodPersisted.narration = PyVal.str nar ∧ nar.length ≤ 240) ∧
    (∃ ost, c2GoodPersisted.on_screen_text = PyVal.list ost ∧ ost.length = 2) ∧
    (∃ ds, c2GoodPersisted.definitions = PyVal.list ds ∧ ds.length = 3) ∧
    (∃ bg, c2GoodPersisted.background_hex = PyVal.str bg ∧ pyStartsWith bg "#" = true) :=
  c2_persisted_document_valid c2GoodEnv c2GoodWordData c2GoodPersisted (by rfl)

/-- C4 (amended): a failure the TikTok adapter handles — a missing or
placeholder token, a requests-level network exception, an invalid-token
answer, a non-200 init status, or a failed PUT — makes upload_tiktok return
False and never prevents the Instagram attempt; only an exception the
adapter does not catch (such as the KeyError on a 200 init response with no
data object, or an OSError from reading the file) propagates out of
distribute before Instagram is attempted. -/
theorem c4_instagram_attempted (tenv : TiktokEnv) (ienv : InstaEnv) (caption : String)
    (b : Bool) (h : (upload_tiktok tenv caption).result = Except.ok b) :
    (distribute tenv ienv caption).instagramAttempted = true ∧
    (distribute tenv ienv caption).instagramResult = Option.some (upload_instagram ienv) := by
  unfold distribute
  rw [h]
  exact ⟨rfl, rfl⟩

/-- A TikTok environment with a valid token whose init call answers 200 but
with no data object in the JSON body. -/
def c4KeyErrTenv : TiktokEnv :=
  { token := Option.some "act.example-token"
    statSize := Except.ok 2000000
    initResult := ReqResult.ok { status := 200, errorCode := Option.none, dataField := Option.none }
    fileRead := Except.ok ()
    uploadResult := ReqResult.ok 200 }

/-- An Instagram environment with working credentials whose upload would
succeed. -/
def c4Ienv : InstaEnv :=
  { username := Option.some "wotd.daily", password := Option.some "hunter2"
    importOk := true, loginOk := true, clipUploadOk := true }

/-- C4 counterexample: with a 200 init response missing the data object, the
KeyError raised inside the TikTok attempt escapes the adapter (which catches
only RequestException) and aborts distribute before the Instagram attempt —
which would have succeeded — refuting the claim that a failure inside the
TikTok attempt never prevents the Instagram attempt. -/
theorem c4_counterexample :
    (upload_tiktok c4KeyErrTenv "Word of the day").result =
      Except.error (PyErr.keyError "data") ∧
    (distribute c4KeyErrTenv c4Ienv "Word of the day").instagramAttempted = false ∧
    upload_instagram c4Ienv = true :=
  ⟨by rfl, by rfl, by rfl⟩

/-- A TikTok environment whose init call raises a network-level exception. -/
def c4NetFailTenv : TiktokEnv :=
  { token := Option.some "act.example-token"
    statSize := Except.ok 2000000
    initResult := ReqResult.requestException "ConnectionError: bad handshake"
    fileRead := Except.ok ()
    uploadResult := ReqResult.ok 200 }

/-- Witness for the amended C4: a network failure inside the TikTok attempt
still lets the Instagram attempt run. -/
theorem c4_instagram_attempted_witness :
    (distribute c4NetFailTenv c4Ienv "Word of the day").instagramAttempted = true ∧
    (distribute c4NetFailTenv c4Ienv "Word of the day").instagramResult =
      Option.some (upload_instagram c4Ienv) :=
  c4_instagram_attempted c4NetFailTenv c4Ienv "Word of the day" false (by rfl)

/-- C5: distribute returns True exactly when some platform adapter returned
True; when both report failure or skip it returns False, and on that path
main exits with code 1 and leaves the whole Phase 3 state — the video in the
exports directory included — untouched. -/
theorem c5_distribute_any_success (tenv : TiktokEnv) (ienv : InstaEnv) (caption : String)
    (t : Bool) (st : P3State)
    (h : (upload_tiktok tenv caption).result = Except.ok t) :
    (distribute tenv ienv caption).result = Except.ok (t || upload_instagram ienv) ∧
    ((t || upload_instagram ienv) = false →
      (main_after_distribute (t || upload_instagram ienv) st).exitCode = Option.some 1 ∧
      (main_after_distribute (t || upload_instagram ienv) st).st = st ∧
      (main_after_distribute (t || upload_instagram ienv) st).archiveCalled = false) := by
  constructor
  · unfold distribute; rw [h]
  · intro hf; rw [hf]; exact ⟨rfl, rfl, rfl⟩

/-- A TikTok environment skipped for carrying a placeholder token. -/
def c5Tenv : TiktokEnv :=
  { token := Option.some "your_tiktok_access_token_here"
    statSize := Except.ok 2000000
    initResult := ReqResult.ok { status := 200, errorCode := Option.none, dataField := Option.none }
    fileRead := Except.ok ()
    uploadResult := ReqResult.ok 200 }

/-- An Instagram environment skipped for missing credentials. -/
def c5Ienv : InstaEnv :=
  { username := Option.none, password := Option.none
    importOk := true, loginOk := true, clipUploadOk := true }

/-- A Phase 3 state before distribution: the export present, nothing
archived or logged. -/
def c5State : P3State :=
  { exportsHasVideo := true, archived := false, tempDirPresent := true
    completionLogged := false }

/-- Witness for C5: with TikTok skipped on a placeholder token and Instagram
skipped on missing credentials, distribute returns False, main exits with
code 1, and the state — the exported video included — is untouched. -/
theorem c5_distribute_any_success_witness :
    (distribute c5Tenv c5Ienv "Word of the day").result = Except.ok false ∧
    (main_after_distribute false c5State).exitCode = Option.some 1 ∧
    (main_after_distribute false c5State).st = c5State ∧
    (main_after_distribute false c5State).archiveCalled = false :=
  ⟨(c5_distribute_any_success c5Tenv c5Ienv "Word of the day" false c5State (by rfl)).1
   , (c5_distribute_any_success c5Tenv c5Ienv "Word of the day" false c5State (by rfl)).2 (by rfl)⟩

/-- C6: cleanup removes the temp directory exactly when the export file
exists with size at least 1,048,576 bytes; otherwise — in particular for a
500,000-byte export — it is a no-op leaving the file system unchanged; and
cleanup is a total function (rmtree runs with errors ignored and no branch
raises), so it never raises. -/
theorem c6_cleanup_guard :
    (∀ fs : P2Fs,
      ((cleanup fs).rmtreeCalled = true ↔ ∃ s, fs.exportFile = Option.some s ∧ 1048576 ≤ s) ∧
      ((cleanup fs).rmtreeCalled = false → (cleanup fs).fs = fs) ∧
      ((cleanup fs).rmtreeCalled = true →
        (cleanup fs).fs = { fs with tempDirPresent := false })) ∧
    cleanup { exportFile := Option.some 500000, tempDirPresent := true } =
      { fs := { exportFile := Option.some 500000, tempDirPresent := true }
        rmtreeCalled := false } := by
  constructor
  · intro fs
    obtain ⟨ef, td⟩ := fs
    cases ef with
    | none => simp [cleanup]
    | some s =>
      by_cases hs : s < 1048576
      · simp [cleanup, hs]
      · simp [cleanup, hs]
        omega
  · rfl

/-- Witness for C6: a 2,000,000-byte export makes cleanup remove the temp
directory, by the theorem applied at that input. -/
theorem c6_cleanup_guard_witness :
    (cleanup { exportFile := Option.some 2000000, tempDirPresent := true }).rmtreeCalled = true ∧
    (cleanup { exportFile := Option.some 2000000, tempDirPresent := true }).fs =
      { exportFile := Option.some 2000000, tempDirPresent := false } :=
  ⟨by rfl
   , (c6_cleanup_guard.1 { exportFile := Option.some 2000000, tempDirPresent := true }).2.2
       (by rfl)⟩

/-- C7: archiving and the completion-log entry happen only on the success
branch after distribute — when distribute reports failure, main exits with
code 1 leaving the state untouched: archive_video is not invoked and no
completion entry is written; on success archive_video is invoked. -/
theorem c7_archive_only_after_success (st : P3State) :
    main_after_distribute false st =
      { st := st, exitCode := Option.some 1, archiveCalled := false } ∧
    (main_after_distribute true st).archiveCalled = true ∧
    (main_after_distribute true st).st.completionLogged = true :=
  ⟨rfl, rfl, rfl⟩

/-- C8: the approval gate accepts only an explicit yes/no answer — on a
stripped-lowercased answer of y it returns the located video path with no
exit and no log entry; on n it appends the timestamped rejection entry and
exits with code 0; on anything else it re-prompts on the remaining input. -/
theorem c8_approval_gate (now videoName c : String) (rest : List String) :
    (pyLower (pyStrip c) = "y" →
      approval_gate now videoName (c :: rest) =
        { returned := Option.some videoName, exitCode := Option.none
          rejectionLogged := Option.none, reprompts := 0 }) ∧
    (pyLower (pyStrip c) = "n" →
      approval_gate now videoName (c :: rest) =
        { returned := Option.none, exitCode := Option.some 0
          rejectionLogged := Option.some (rejectionEntry now videoName), reprompts := 0 }) ∧
    (pyLower (pyStrip c) ≠ "y" → pyLower (pyStrip c) ≠ "n" →
      approval_gate now videoName (c :: rest) =
        { approval_gate now videoName rest with
            reprompts := (approval_gate now videoName rest).reprompts + 1 }) := by
  refine ⟨?_, ?_, ?_⟩
  · intro hy; simp [approval_gate, hy]
  · intro hn
    by_cases hy : pyLower (pyStrip c) = "y"
    · rw [hy] at hn; exact absurd hn (by decide)
    · simp [approval_gate, hy, hn]
  · intro hy hn; simp [approval_gate, hy, hn]

/-- Witness for C8: the answer N with surrounding spaces rejects, logs the
timestamped entry, and exits 0, by the theorem applied at that input. -/
theorem c8_approval_gate_witness :
    pyLower (pyStrip " N ") = "n" ∧
    approval_gate "2025-10-12T08:00:00" "word_of_the_day.mp4" [" N "] =
      { returned := Option.none, exitCode := Option.some 0
        rejectionLogged :=
          Option.some (rejectionEntry "2025-10-12T08:00:00" "word_of_the_day.mp4")
        reprompts := 0 } :=
  ⟨by decide
   , (c8_approval_gate "2025-10-12T08:00:00" "word_of_the_day.mp4" " N " []).2.1 (by decide)⟩

/-- phase45 does not change the claude and TTS call counters it is given. -/
theorem phase45_calls (env : RunEnv) (c t : Nat) :
    (phase45 env c t).claudeCalls = c ∧ (phase45 env c t).ttsCalls = t := by
  unfold phase45
  cases hc : env.comfyResult with
  | error e => exact ⟨rfl, rfl⟩
  | ok u =>
    cases hf : env.ffmpegResult with
    | error e => exact ⟨rfl, rfl⟩
    | ok v => exact ⟨rfl, rfl⟩

/-- C9: in test mode the pipeline never attempts the generative-text call
nor the TTS call, and it fails fast with the explicit error naming the
missing artifact when the checkpoint file or the cached audio is absent. -/
theorem c9_test_mode_fail_fast (env : RunEnv) :
    (pipelineRun true env).claudeCalls = 0 ∧
    (pipelineRun true env).ttsCalls = 0 ∧
    (env.bridgeExists = false →
      (pipelineRun true env).result =
        Except.error (PyErr.runtimeError "Test mode requires existing data_bridge.json")) ∧
    (∀ p, env.bridgeExists = true → env.bridgeParse = Except.ok p →
      env.audioExists = false →
      (pipelineRun true env).result =
        Except.error (PyErr.runtimeError "Test mode requires existing temp/audio.mp3")) := by
  unfold pipelineRun
  cases hb : env.bridgeExists with
  | false => simp
  | true =>
    cases hp : env.bridgeParse with
    | error e => simp
    | ok p =>
      unfold phase2Run
      cases ha : env.audioExists with
      | false => simp
      | true =>
        have h45 := phase45_calls env 0 0
        simp [h45.1, h45.2]

/-- A run environment for test mode with no checkpoint file present. -/
def c9Env : RunEnv :=
  { bridgeExists := false
    bridgeParse := Except.error PyErr.jsonDecodeError
    audioExists := false
    fetchEnv := { navResult := Except.ok (), jsonEl := Option.none, page := emptyDomPage }
    alertEnv := quietAlertEnv
    fallbackEntries := demoFallback
    fallbackIx := 0
    cliEnv := { returncode := 1, stderr := "", parsed := Except.error PyErr.jsonDecodeError }
    ttsResult := Except.ok ()
    comfyResult := Except.ok ()
    ffmpegResult := Except.ok ()
    fsAfterMerge := { exportFile := Option.none, tempDirPresent := true } }

/-- Witness for C9: with the checkpoint file absent, the test-mode run fails
fast with the explicit error and attempts neither network call, by the
theorem applied at that environment. -/
theorem c9_test_mode_fail_fast_witness :
    (pipelineRun true c9Env).result =
      Except.error (PyErr.runtimeError "Test mode requires existing data_bridge.json") ∧
    (pipelineRun true c9Env).claudeCalls = 0 ∧
    (pipelineRun true c9Env).ttsCalls = 0 :=
  ⟨(c9_test_mode_fail_fast c9Env).2.2.1 (by rfl)
   , (c9_test_mode_fail_fast c9Env).1
   , (c9_test_mode_fail_fast c9Env).2.1⟩

/-- Every init body upload_tiktok can post is the one built from the caption
and the stat size. -/
theorem upload_tiktok_initBody (env : TiktokEnv) (caption : String) :
    (upload_tiktok env caption).initBodySent = Option.none ∨
    ∃ fs, env.statSize = Except.ok fs ∧
      (upload_tiktok env caption).initBodySent =
        Option.some (buildInitBody caption fs) := by
  unfold upload_tiktok
  split
  · left; rfl
  · cases hs : env.statSize with
    | error e => left; simp
    | ok fs =>
      right
      refine ⟨fs, rfl, ?_⟩
      cases hi : env.initResult with
      | requestException m => simp
      | ok resp =>
        by_cases h1 : resp.status = 401 ∨ resp.errorCode = Option.some "access_token_invalid"
        · simp [h1]
        · by_cases h2 : resp.status ≠ 200
          · simp [h1, h2]
          · cases hd : resp.dataField with
            | none => simp [h1, h2, hd]
            | some pair =>
              cases hr : env.fileRead with
              | error e2 => simp [h1, h2, hd]
              | ok u =>
                cases hu : env.uploadResult with
                | requestException m2 => simp [h1, h2, hd]
                | ok st =>
                  by_cases h3 : st = 200 ∨ st = 201
                  · simp [h1, h2, hd, h3]
                  · simp [h1, h2, hd, h3]

/-- C10: every TikTok init request that reaches a live attempt carries
privacy_level SELF_ONLY — private, never public — and a title equal to the
caption truncated to at most 150 characters. -/
theorem c10_tiktok_private_init (env : TiktokEnv) (caption : String) (b : InitBody)
    (h : (upload_tiktok env caption).initBodySent = Option.some b) :
    b.post_info.privacy_level = "SELF_ONLY" ∧
    b.post_info.title = pyTake 150 caption ∧
    b.post_info.title.length ≤ 150 := by
  rcases upload_tiktok_initBody env caption with hnone | ⟨fs, hfs, hsome⟩
  · rw [hnone] at h; exact absurd h (by simp)
  · rw [hsome] at h
    have hb := Option.some.inj h
    rw [← hb]
    refine ⟨rfl, rfl, ?_⟩
    show (pyTake 150 caption).length ≤ 150
    simp only [pyTake, String.length]
    exact List.length_take_le _ _

/-- A TikTok environment reaching a live, fully successful attempt. -/
def c10Tenv : TiktokEnv :=
  { token := Option.some "act.example-token"
    statSize := Except.ok 1500000
    initResult := ReqResult.ok
      { status := 200, errorCode := Option.none
        dataField := Option.some ("https://upload.tiktokapis.com/u1", "pub42") }
    fileRead := Except.ok ()
    uploadResult := ReqResult.ok 200 }

/-- Witness for C10 at a concrete live attempt, by the theorem applied
there. -/
theorem c10_tiktok_private_init_witness :
    (buildInitBody "Ephemeral: blink and it is gone" 1500000).post_info.privacy_level =
      "SELF_ONLY" ∧
    (buildInitBody "Ephemeral: blink and it is gone" 1500000).post_info.title =
      pyTake 150 "Ephemeral: blink and it is gone" ∧
    (buildInitBody "Ephemeral: blink and it is gone" 1500000).post_info.title.length ≤ 150 :=
  c10_tiktok_private_init c10Tenv "Ephemeral: blink and it is gone"
    (buildInitBody "Ephemeral: blink and it is gone" 1500000) (by rfl)

end WotdPipeline
